import Mathlib

/-!
Shallow embedding of the multi-sensor background detection core of the
sentinel-whisper-alert repository.

Sources embedded here:
* src/unnamed/part_001 — the useBackgroundDetection hook: voice keyword
  matching (recognition.onresult), motion shake detection (handleMotion),
  camera stream acquisition, startBackgroundDetection, stopBackgroundDetection,
  and the recognition.onend auto-restart.
* src/public/sw.js — the worker message handler and handleEmergencyAlert.

Numbers of the source (sensitivities, clock values in milliseconds,
acceleration components) are embedded as rationals; the JavaScript
Math.sqrt comparison of handleMotion is embedded by the equivalent
squared comparison (see accelExceeds and accelExceeds_iff_sqrt below).
-/

/-! ## Voice channel: keyword matching in recognition.onresult -/

/-- Does the first list start with the second list, element by element.
Helper for embedding the JavaScript String.prototype.includes test. -/
def strStartsWith : List Char → List Char → Bool
  | _, [] => true
  | [], _ :: _ => false
  | a :: as, b :: bs => a == b && strStartsWith as bs

/-- Does the first list contain the second list as a contiguous segment. -/
def listContainsSub : List Char → List Char → Bool
  | [], needle => strStartsWith [] needle
  | a :: t, needle => strStartsWith (a :: t) needle || listContainsSub t needle

/-- Embedding of JavaScript hay.includes(needle): substring containment. -/
def strIncludes (hay needle : String) : Bool :=
  listContainsSub hay.toList needle.toList

/-- Embedding of src/unnamed/part_001 lines 130-133: the onresult handler
concatenates the best alternative transcript of every returned result
(result[0].transcript, passed here already projected as a list of strings),
joins them and lower-cases the concatenation. -/
def onresultTranscript (results : List String) : String :=
  (String.join results).toLower

/-- Embedding of src/unnamed/part_001 lines 136-138: some configured keyword,
lower-cased, occurs in the transcript as a substring. -/
def hasEmergencyKeyword (keywords : List String) (transcript : String) : Bool :=
  keywords.any (fun keyword => strIncludes transcript keyword.toLower)

/-- Number of onEmergencyDetected invocations the onresult handler performs
for one incremental result (src/unnamed/part_001 lines 140-143): one when a
keyword matched, zero otherwise. -/
def onresultCallbackCount (keywords results : List String) : Nat :=
  if hasEmergencyKeyword keywords (onresultTranscript results) then 1 else 0

/-! ## Motion channel: handleMotion -/

/-- One devicemotion sample: the three acceleration axes, each possibly
absent (JavaScript destructuring defaults absent axes to 0). -/
structure Acceleration where
  x : Option ℚ
  y : Option ℚ
  z : Option ℚ
deriving DecidableEq

/-- The per-channel debounce state of startMotionDetection: the closure
variable lastShakeTime, initialized to 0. -/
structure MotionState where
  lastShakeTime : ℚ
deriving DecidableEq

/-- Embedding of src/unnamed/part_001 line 197:
shakeThreshold = (100 - settings.motionSensitivity) / 10. -/
def shakeThreshold (motionSensitivity : ℚ) : ℚ :=
  (100 - motionSensitivity) / 10

/-- The squared magnitude x*x + y*y + z*z of a sample, absent axes read
as 0 (src/unnamed/part_001 lines 203-204). -/
def accelMagSq (a : Acceleration) : ℚ :=
  let x := a.x.getD 0
  let y := a.y.getD 0
  let z := a.z.getD 0
  x * x + y * y + z * z

/-- Embedding of the comparison Math.sqrt(magSq) > threshold of
src/unnamed/part_001 lines 204-206, stated without a square root: since
the square root of a nonnegative number is nonnegative, it exceeds a
negative threshold always, and exceeds a nonnegative threshold exactly
when the radicand exceeds the squared threshold. The lemma
accelExceeds_iff_sqrt below proves this embedding equal to the source
comparison over the reals. -/
def accelExceeds (threshold magSq : ℚ) : Bool :=
  decide (threshold < 0) || decide (threshold * threshold < magSq)

/-- Embedding of src/unnamed/part_001 lines 200-214, the handleMotion
listener: a sample without acceleration returns; otherwise, when the total
acceleration exceeds the threshold and now - lastShakeTime > 2000, the
trigger fires (returns true) and lastShakeTime is set to now. -/
def handleMotion (motionSensitivity : ℚ) (st : MotionState)
    (acceleration : Option Acceleration) (now : ℚ) : MotionState × Bool :=
  match acceleration with
  | none => (st, false)
  | some a =>
    if accelExceeds (shakeThreshold motionSensitivity) (accelMagSq a) then
      if 2000 < now - st.lastShakeTime then
        ({ lastShakeTime := now }, true)
      else (st, false)
    else (st, false)

/-! ## Hook data model -/

/-- The DetectionSettings record of src/unnamed/part_001 lines 61-69. -/
structure DetectionSettings where
  voiceEnabled : Bool
  blinkEnabled : Bool
  gestureEnabled : Bool
  motionEnabled : Bool
  voiceSensitivity : ℚ
  motionSensitivity : ℚ
  emergencyKeywords : List String
deriving DecidableEq

/-- The detectionStatus record of src/unnamed/part_001 lines 85-89. -/
structure DetectionStatus where
  voice : Bool
  motion : Bool
  camera : Bool
deriving DecidableEq

/-- Host capabilities and permission outcomes the hook consults:
existence of a speech recognition constructor on window, the iOS style
DeviceMotionEvent.requestPermission gate and its outcome, and the
getUserMedia permission outcome. -/
structure HostEnv where
  speechRecognitionAvailable : Bool
  motionPermissionGate : Bool
  motionPermissionGranted : Bool
  cameraPermissionGranted : Bool
deriving DecidableEq

/-- The mutable state of one hook instance together with the host side
resource registries the hook manipulates: refs (speechRecognitionRef,
motionListenerRef, videoStreamRef) hold identifiers of the resources the
hook tracks, while activeRecognitions, registeredMotionListeners and
activeTracks record every resource currently live on the host (started
recognition engines, listeners attached via addEventListener, live media
tracks). nextId allocates fresh resource identifiers. -/
structure HookState where
  isBackgroundActive : Bool
  detectionStatus : DetectionStatus
  speechRef : Option Nat
  motionRef : Option Nat
  videoRef : Option (List Nat)
  activeRecognitions : List Nat
  registeredMotionListeners : List Nat
  activeTracks : List Nat
  nextId : Nat
deriving DecidableEq

/-- The state of a freshly mounted hook (src/unnamed/part_001 lines 84-94). -/
def initHookState : HookState :=
  { isBackgroundActive := false
  , detectionStatus := ⟨false, false, false⟩
  , speechRef := none
  , motionRef := none
  , videoRef := none
  , activeRecognitions := []
  , registeredMotionListeners := []
  , activeTracks := []
  , nextId := 0 }

/-! ## Channel startup -/

/-- Embedding of startVoiceDetection (src/unnamed/part_001 lines 114-173):
returns false when voice is disabled or no recognition constructor exists;
otherwise creates and starts a new recognition engine and stores it in
speechRecognitionRef, overwriting any previous ref without stopping the
engine it held. -/
def startVoiceDetection (env : HostEnv) (settings : Option DetectionSettings)
    (st : HookState) : HookState × Bool :=
  match settings with
  | none => (st, false)
  | some s =>
    if !s.voiceEnabled || !env.speechRecognitionAvailable then (st, false)
    else
      let id := st.nextId
      ({ st with
          speechRef := some id
        , activeRecognitions := id :: st.activeRecognitions
        , nextId := id + 1 }, true)

/-- Embedding of startMotionDetection (src/unnamed/part_001 lines 175-222):
returns false when motion is disabled or a required permission grant is
denied; otherwise attaches a new devicemotion listener and stores it in
motionListenerRef, overwriting any previous ref without detaching the
listener it held. -/
def startMotionDetection (env : HostEnv) (settings : Option DetectionSettings)
    (st : HookState) : HookState × Bool :=
  match settings with
  | none => (st, false)
  | some s =>
    if !s.motionEnabled then (st, false)
    else if env.motionPermissionGate && !env.motionPermissionGranted then (st, false)
    else
      let id := st.nextId
      ({ st with
          motionRef := some id
        , registeredMotionListeners := id :: st.registeredMotionListeners
        , nextId := id + 1 }, true)

/-- Embedding of the continuation of startCameraDetection after the
suspension point await getUserMedia resolves with a granted stream
(src/unnamed/part_001 lines 236-243): the stream is stored in
videoStreamRef unconditionally and the function returns true. The stream
is a list of live track identifiers added to the host registry. -/
def cameraPermissionResume (st : HookState) (stream : List Nat) : HookState × Bool :=
  ({ st with
      videoRef := some stream
    , activeTracks := stream ++ st.activeTracks }, true)

/-- Embedding of startCameraDetection (src/unnamed/part_001 lines 224-255)
for the run in which the permission decision is already available at the
suspension point: returns false when neither blink nor gesture is enabled
or camera access is denied; otherwise resumes with a one-track stream. -/
def startCameraDetection (env : HostEnv) (settings : Option DetectionSettings)
    (st : HookState) : HookState × Bool :=
  match settings with
  | none => (st, false)
  | some s =>
    if !s.blinkEnabled && !s.gestureEnabled then (st, false)
    else if !env.cameraPermissionGranted then (st, false)
    else cameraPermissionResume { st with nextId := st.nextId + 1 } [st.nextId]

/-! ## Supervisor lifecycle -/

/-- Outcome reported by startBackgroundDetection: the Configuration
Required refusal toast, or activation together with the DetectionStatus
it published. -/
inductive StartResult where
  | configurationRequired
  | started (status : DetectionStatus)
deriving DecidableEq

/-- Embedding of startBackgroundDetection (src/unnamed/part_001 lines
257-299): refuses with a blocking warning when settings is null; otherwise
sets isBackgroundActive, attempts each enabled channel in order (voice,
motion, camera), and publishes the per-channel success flags. No channel
of a previous session is stopped first. -/
def startBackgroundDetection (env : HostEnv) (settings : Option DetectionSettings)
    (st : HookState) : HookState × StartResult :=
  match settings with
  | none => (st, StartResult.configurationRequired)
  | some s =>
    let st1 := { st with isBackgroundActive := true }
    let pv := if s.voiceEnabled then startVoiceDetection env (some s) st1 else (st1, false)
    let pm := if s.motionEnabled then startMotionDetection env (some s) pv.1 else (pv.1, false)
    let pc := if s.blinkEnabled || s.gestureEnabled then
        startCameraDetection env (some s) pm.1 else (pm.1, false)
    let status : DetectionStatus := ⟨pv.2, pm.2, pc.2⟩
    ({ pc.1 with detectionStatus := status }, StartResult.started status)

/-- Embedding of stopBackgroundDetection (src/unnamed/part_001 lines
301-332): clears isBackgroundActive, stops the recognition engine held in
speechRecognitionRef when present, detaches the listener held in
motionListenerRef when present, stops every track of the stream held in
videoStreamRef when present, clears the three refs and resets the
published status to all false. Each teardown touches only the resource
the ref currently holds. -/
def stopBackgroundDetection (st : HookState) : HookState :=
  { isBackgroundActive := false
  , detectionStatus := ⟨false, false, false⟩
  , speechRef := none
  , motionRef := none
  , videoRef := none
  , activeRecognitions :=
      match st.speechRef with
      | some id => st.activeRecognitions.erase id
      | none => st.activeRecognitions
  , registeredMotionListeners :=
      match st.motionRef with
      | some id => st.registeredMotionListeners.erase id
      | none => st.registeredMotionListeners
  , activeTracks :=
      match st.videoRef with
      | some stream => st.activeTracks.removeAll stream
      | none => st.activeTracks
  , nextId := st.nextId }

/-! ## Voice channel resilience: recognition.onend -/

/-- What the onend handler schedules: a restart of the same engine after a
delay in milliseconds, or nothing. -/
inductive VoiceEndAction where
  | restartAfter (delayMs : ℚ)
  | noRestart
deriving DecidableEq

/-- Embedding of the recognition.onend handler (src/unnamed/part_001 lines
157-168): when the guard isBackgroundActive && settings?.voiceEnabled
holds, a restart of the engine is scheduled via setTimeout after 1000 ms;
the handler performs no onEmergencyDetected invocation in either branch,
and the scheduled restart only calls recognition.start(). The first
parameter is the value of isBackgroundActive the handler OBSERVES: the
source handler is a closure created inside startVoiceDetection, so it
reads the render snapshot of the state captured when the handlers were
installed, not the live hook flag — setIsBackgroundActive(true) inside the
same startBackgroundDetection call does not update the binding of the
render that is executing, so for every engine created by the start call
that activates the session this snapshot is false. The second component
of the result counts the onEmergencyDetected invocations of the handler. -/
def recognitionOnEnd (capturedIsBackgroundActive : Bool)
    (settings : Option DetectionSettings) : VoiceEndAction × Nat :=
  match settings with
  | none => (VoiceEndAction.noRestart, 0)
  | some s =>
    if capturedIsBackgroundActive && s.voiceEnabled then
      (VoiceEndAction.restartAfter 1000, 0)
    else (VoiceEndAction.noRestart, 0)

/-! ## Worker message contract (src/public/sw.js) -/

/-- An inbound worker message: its type tag and the contactCount field of
its payload. -/
structure WorkerMessage where
  type : String
  contactCount : Nat
deriving DecidableEq

/-- A notification shown by the worker: title, body, and action list of
(action, title) pairs. -/
structure SWNotification where
  title : String
  body : String
  actions : List (String × String)
deriving DecidableEq

/-- Embedding of handleEmergencyAlert (src/public/sw.js lines 47-62): the
single showNotification call with fixed title, a body interpolating
contactCount, and one view action. -/
def handleEmergencyAlert (contactCount : Nat) : SWNotification :=
  { title := "🚨 Emergency Alert Sent"
  , body := "Alert sent to " ++ toString contactCount ++ " emergency contacts"
  , actions := [("view", "View Details")] }

/-- Embedding of the message listener (src/public/sw.js lines 36-40): a
null or differently typed message shows nothing; an EMERGENCY_TRIGGERED
message shows exactly the handleEmergencyAlert notification. Returns the
list of notifications shown for the message. -/
def onWorkerMessage (data : Option WorkerMessage) : List SWNotification :=
  match data with
  | none => []
  | some m =>
    if m.type == "EMERGENCY_TRIGGERED" then [handleEmergencyAlert m.contactCount]
    else []

/-! ## Validation of the squared comparison against the source square root -/

/-- The embedding accelExceeds agrees with the source comparison
Math.sqrt(magSq) > threshold over the reals, for every nonnegative
radicand (and the radicand x*x + y*y + z*z is always nonnegative). -/
theorem accelExceeds_iff_sqrt (threshold magSq : ℚ) (_hm : 0 ≤ magSq) :
    accelExceeds threshold magSq = true ↔
      (threshold : ℝ) < Real.sqrt (magSq : ℝ) := by
  unfold accelExceeds
  by_cases ht : threshold < 0
  · have hd : decide (threshold < 0) = true := decide_eq_true ht
    simp only [hd, Bool.true_or, true_iff]
    have ht' : (threshold : ℝ) < 0 := by exact_mod_cast ht
    exact lt_of_lt_of_le ht' (Real.sqrt_nonneg _)
  · have hd : decide (threshold < 0) = false := decide_eq_false ht
    push_neg at ht
    have ht' : (0 : ℝ) ≤ (threshold : ℝ) := by exact_mod_cast ht
    simp only [hd, Bool.false_or, decide_eq_true_eq]
    rw [Real.lt_sqrt ht', pow_two]
    exact ⟨fun hh => by exact_mod_cast hh, fun hh => by exact_mod_cast hh⟩

/-- A closed witness that accelExceeds_iff_sqrt applies at a concrete
input: a magnitude-5 sample against the threshold 4. -/
theorem accelExceeds_iff_sqrt_witness :
    accelExceeds 4 25 = true ↔ ((4 : ℚ) : ℝ) < Real.sqrt ((25 : ℚ) : ℝ) :=
  accelExceeds_iff_sqrt 4 25 (by norm_num)

/-! ## C1 -/

/-- C1: for every keyword set K and every incremental result list, the
onresult handler invokes the emergency callback exactly once when the
lower-cased concatenation of the best transcripts contains some
lower-cased keyword of K as a substring, zero times otherwise; in
particular it never invokes the callback more than once per result, even
when several keywords match. -/
theorem voice_onresult_fires_iff_keyword_substring (K results : List String) :
    (onresultCallbackCount K results = 1
      ↔ ∃ k ∈ K, strIncludes (onresultTranscript results) k.toLower = true)
    ∧ onresultCallbackCount K results ≤ 1 := by
  have hiff : hasEmergencyKeyword K (onresultTranscript results) = true ↔
      ∃ k ∈ K, strIncludes (onresultTranscript results) k.toLower = true := by
    simp [hasEmergencyKeyword, List.any_eq_true]
  by_cases h : hasEmergencyKeyword K (onresultTranscript results) = true
  · refine ⟨?_, ?_⟩
    · unfold onresultCallbackCount
      rw [if_pos h]
      exact ⟨fun _ => hiff.mp h, fun _ => rfl⟩
    · unfold onresultCallbackCount
      rw [if_pos h]
  · refine ⟨?_, ?_⟩
    · unfold onresultCallbackCount
      rw [if_neg h]
      constructor
      · intro h01
        exact absurd h01 (by norm_num)
      · intro hex
        exact absurd (hiff.mpr hex) h
    · unfold onresultCallbackCount
      rw [if_neg h]
      norm_num

/-! ## C2 -/

/-- C2 counterexample: with motionSensitivity 60 (threshold 4, a
nonnegative threshold, so a magnitude-5 sample exceeds it) and a last
trigger at time 10000, a sample arriving at time 12000 has exactly
2000 ms = 2 time units elapsed — at least 2 time units — yet
handleMotion does not fire, because the source requires strictly more
than 2000 ms. -/
theorem motion_debounce_boundary_counterexample :
    (handleMotion 60 ⟨10000⟩ (some ⟨some 5, some 0, some 0⟩) 12000).2 = false
    ∧ (2 * 1000 : ℚ) ≤ 12000 - 10000
    ∧ shakeThreshold 60 * shakeThreshold 60 < accelMagSq ⟨some 5, some 0, some 0⟩
    ∧ 0 ≤ shakeThreshold 60 := by
  have h2 : shakeThreshold 60 * shakeThreshold 60
      < accelMagSq ⟨some 5, some 0, some 0⟩ := by
    norm_num [shakeThreshold, accelMagSq]
  have hacc : accelExceeds (shakeThreshold 60)
      (accelMagSq ⟨some 5, some 0, some 0⟩) = true := by
    simp [accelExceeds, h2]
  refine ⟨?_, by norm_num, h2, by norm_num [shakeThreshold]⟩
  simp only [handleMotion, hacc]
  norm_num

/-- The three-sample scenario of C2 run from a fresh motion channel whose
clock origin is t0: magnitude-5 samples at t0, t0 + 1000 and t0 + 2100.
Returns the three fire flags. -/
def motionScenario (t0 : ℚ) : Bool × Bool × Bool :=
  let a5 : Acceleration := ⟨some 5, some 0, some 0⟩
  let r1 := handleMotion 60 ⟨0⟩ (some a5) t0
  let r2 := handleMotion 60 r1.1 (some a5) (t0 + 1000)
  let r3 := handleMotion 60 r2.1 (some a5) (t0 + 2100)
  (r1.2, r2.2, r3.2)

/-- C2, amended: handleMotion fires iff the total acceleration exceeds the
threshold (100 - motionSensitivity)/10 and STRICTLY more than 2000 ms
(2 time units) have elapsed since the last trigger time; with
motionSensitivity 60 the threshold is 4, and for every clock origin
t0 > 2000 (any realistic wall clock, since the last trigger time starts
at 0) a magnitude-5 sample at t0 fires, at t0 + 1000 does not, and at
t0 + 2100 fires again. -/
theorem motion_trigger_threshold_and_debounce (motionSensitivity now t0 : ℚ)
    (st : MotionState) (a : Acceleration) (h : 2000 < t0) :
    ((handleMotion motionSensitivity st (some a) now).2 = true ↔
      (accelExceeds (shakeThreshold motionSensitivity) (accelMagSq a) = true
        ∧ 2000 < now - st.lastShakeTime))
    ∧ shakeThreshold 60 = 4
    ∧ motionScenario t0 = (true, false, true) := by
  have h2 : shakeThreshold 60 * shakeThreshold 60
      < accelMagSq ⟨some 5, some 0, some 0⟩ := by
    norm_num [shakeThreshold, accelMagSq]
  have hacc : accelExceeds (shakeThreshold 60)
      (accelMagSq ⟨some 5, some 0, some 0⟩) = true := by
    simp [accelExceeds, h2]
  have e1 : handleMotion 60 ⟨0⟩ (some ⟨some 5, some 0, some 0⟩) t0
      = (⟨t0⟩, true) := by
    simp only [handleMotion, hacc]
    rw [if_pos trivial, if_pos (by simpa using h)]
  have e2 : handleMotion 60 (⟨t0⟩ : MotionState)
      (some ⟨some 5, some 0, some 0⟩) (t0 + 1000) = (⟨t0⟩, false) := by
    simp only [handleMotion, hacc]
    rw [if_pos trivial, if_neg (by rw [add_sub_cancel_left]; norm_num)]
  have e3 : handleMotion 60 (⟨t0⟩ : MotionState)
      (some ⟨some 5, some 0, some 0⟩) (t0 + 2100) = (⟨t0 + 2100⟩, true) := by
    simp only [handleMotion, hacc]
    rw [if_pos trivial, if_pos (by rw [add_sub_cancel_left]; norm_num)]
  refine ⟨?_, by norm_num [shakeThreshold], ?_⟩
  · simp only [handleMotion]
    split_ifs with h1 hdeb
    · simp [h1, hdeb]
    · simp [h1, hdeb]
    · simp [h1]
  · simp only [motionScenario, e1, e2, e3]

/-- C2 witness: the amended theorem applied at the concrete clock origin
t0 = 1000000, evaluating the scenario. -/
theorem motion_trigger_threshold_and_debounce_witness :
    motionScenario 1000000 = (true, false, true) :=
  (motion_trigger_threshold_and_debounce 60 0 1000000 ⟨0⟩
    ⟨some 5, some 0, some 0⟩ (by norm_num)).2.2

/-! ## C3 -/

/-- The hook state after calling startBackgroundDetection twice in a row
with voice and motion enabled on a host that grants everything: the second
start runs while the first session is still active. -/
def doubleStartState : HookState :=
  (startBackgroundDetection ⟨true, false, true, true⟩
    (some ⟨true, false, false, true, 70, 60, ["help"]⟩)
    (startBackgroundDetection ⟨true, false, true, true⟩
      (some ⟨true, false, false, true, 70, 60, ["help"]⟩) initHookState).1).1

/-- C3 fails on the code: after a second start while the first session is
active, two devicemotion listeners are attached and two recognition
engines run (the source overwrites the refs without stopping the previous
resources), and even a subsequent stop deregisters only the listener and
engine held in the refs, leaking one of each. -/
theorem double_start_leaves_duplicate_listeners :
    doubleStartState.registeredMotionListeners.length = 2
    ∧ doubleStartState.activeRecognitions.length = 2
    ∧ (stopBackgroundDetection doubleStartState).registeredMotionListeners.length = 1
    ∧ (stopBackgroundDetection doubleStartState).activeRecognitions.length = 1
    ∧ doubleStartState.isBackgroundActive = true :=
  ⟨rfl, rfl, rfl, rfl, rfl⟩

/-! ## C4 -/

/-- The state produced when stopBackgroundDetection runs while the
getUserMedia permission request of startCameraDetection is suspended, and
the grant then resolves: the continuation after the await runs against
the stopped state. -/
def staleCameraResume : HookState × Bool :=
  cameraPermissionResume
    (stopBackgroundDetection { initHookState with isBackgroundActive := true }) [0]

/-- C4 fails on the code: a camera permission grant resolving after stop
is not a no-op — the continuation after the await stores the stream in
videoStreamRef and the granted track stays live, on a hook that is no
longer active, so the resume changes the stopped state. -/
theorem stale_camera_grant_after_stop_not_noop :
    staleCameraResume.1.activeTracks = [0]
    ∧ staleCameraResume.1.videoRef = some [0]
    ∧ staleCameraResume.1.isBackgroundActive = false
    ∧ staleCameraResume.2 = true
    ∧ staleCameraResume.1
        ≠ stopBackgroundDetection { initHookState with isBackgroundActive := true } := by
  refine ⟨rfl, rfl, rfl, rfl, by decide⟩

/-! ## C5 -/

/-- C5 fails on the code: the onend handlers of every engine created by
the start call that activates the session capture the render snapshot of
isBackgroundActive, and that snapshot is false — the hook rendered
inactive before start ran, and setIsBackgroundActive(true) inside the
same call does not update the executing render's binding. So when such an
engine terminates spontaneously while the session is live (third
conjunct: the hook state after the activating start is active), the
handler observes false and schedules no restart (first conjunct), for
every settings value; the restartAfter-1000 branch is reachable only from
a handler whose captured snapshot already read true (second conjunct),
i.e. an engine created by a start call issued after a re-render of an
already active hook. The handler performs zero emergency callback
invocations in every case (fourth conjunct). -/
theorem voice_onend_stale_closure_no_restart :
    (∀ s : DetectionSettings,
      recognitionOnEnd false (some s) = (VoiceEndAction.noRestart, 0))
    ∧ recognitionOnEnd true (some ⟨true, false, false, true, 70, 60, ["help"]⟩)
        = (VoiceEndAction.restartAfter 1000, 0)
    ∧ (startBackgroundDetection ⟨true, false, true, true⟩
        (some ⟨true, false, false, true, 70, 60, ["help"]⟩)
        initHookState).1.isBackgroundActive = true
    ∧ ∀ (b : Bool) (os : Option DetectionSettings),
        (recognitionOnEnd b os).2 = 0 := by
  refine ⟨fun s => rfl, rfl, rfl, ?_⟩
  intro b os
  cases os with
  | none => rfl
  | some s2 =>
    simp only [recognitionOnEnd]
    split <;> rfl

/-! ## C6 -/

/-- C6: stopBackgroundDetection is a total function (never throws) and
idempotent — a second stop changes nothing, and a stop on the freshly
mounted state is the identity; after any single stop the hook is
inactive, the published status is all false, and every tracked channel
ref is cleared regardless of the prior state. -/
theorem stop_idempotent_and_total_teardown (st : HookState) :
    stopBackgroundDetection (stopBackgroundDetection st) = stopBackgroundDetection st
    ∧ stopBackgroundDetection initHookState = initHookState
    ∧ (stopBackgroundDetection st).isBackgroundActive = false
    ∧ (stopBackgroundDetection st).detectionStatus = ⟨false, false, false⟩
    ∧ (stopBackgroundDetection st).speechRef = none
    ∧ (stopBackgroundDetection st).motionRef = none
    ∧ (stopBackgroundDetection st).videoRef = none :=
  ⟨rfl, rfl, rfl, rfl, rfl, rfl, rfl⟩

/-! ## C7 -/

/-- C7: startBackgroundDetection with absent settings refuses entirely:
it reports the blocking Configuration Required warning and returns the
state unchanged — no channel is touched and nothing is started, for every
host environment and every prior state. -/
theorem start_refused_without_settings (env : HostEnv) (st : HookState) :
    startBackgroundDetection env none st = (st, StartResult.configurationRequired) :=
  rfl

/-! ## C8 -/

/-- The concrete C8 scenario: voice and motion enabled and granted, blink
enabled but camera permission denied, started from the fresh state. -/
def cameraDeniedStart : HookState × StartResult :=
  startBackgroundDetection ⟨true, false, true, false⟩
    (some ⟨true, true, false, true, 70, 60, ["help", "emergency"]⟩) initHookState

set_option maxHeartbeats 2000000 in
/-- C8: failures are isolated per channel, for every environment,
settings and prior state. First conjunct: denying camera permission
changes neither the voice nor the motion startup outcome, the active
flag, the running recognition engines, nor the attached motion
listeners. Second conjunct: removing the speech recognition capability
changes neither the motion nor the camera outcome, the active flag, the
number of attached motion listeners, nor the number of live camera
tracks (the counts are compared because the failed voice attempt shifts
the identifiers the later channels allocate). Third conjunct: denying a
gated motion permission changes neither the voice nor the camera
outcome, the active flag, the running recognition engines, nor the
number of live camera tracks. Fourth conjunct, the concrete scenario:
with voice and motion succeeding and camera denied, start publishes
DetectionStatus true, true, false on an active session that keeps a
running recognition engine and an attached motion listener. -/
theorem channel_failures_isolated (env : HostEnv) (s : DetectionSettings)
    (st : HookState) :
    ((startBackgroundDetection { env with cameraPermissionGranted := false }
        (some s) st).1.detectionStatus.voice
      = (startBackgroundDetection env (some s) st).1.detectionStatus.voice
    ∧ (startBackgroundDetection { env with cameraPermissionGranted := false }
        (some s) st).1.detectionStatus.motion
      = (startBackgroundDetection env (some s) st).1.detectionStatus.motion
    ∧ (startBackgroundDetection { env with cameraPermissionGranted := false }
        (some s) st).1.isBackgroundActive
      = (startBackgroundDetection env (some s) st).1.isBackgroundActive
    ∧ (startBackgroundDetection { env with cameraPermissionGranted := false }
        (some s) st).1.activeRecognitions
      = (startBackgroundDetection env (some s) st).1.activeRecognitions
    ∧ (startBackgroundDetection { env with cameraPermissionGranted := false }
        (some s) st).1.registeredMotionListeners
      = (startBackgroundDetection env (some s) st).1.registeredMotionListeners)
    ∧ ((startBackgroundDetection { env with speechRecognitionAvailable := false }
        (some s) st).1.detectionStatus.motion
      = (startBackgroundDetection env (some s) st).1.detectionStatus.motion
    ∧ (startBackgroundDetection { env with speechRecognitionAvailable := false }
        (some s) st).1.detectionStatus.camera
      = (startBackgroundDetection env (some s) st).1.detectionStatus.camera
    ∧ (startBackgroundDetection { env with speechRecognitionAvailable := false }
        (some s) st).1.isBackgroundActive
      = (startBackgroundDetection env (some s) st).1.isBackgroundActive
    ∧ (startBackgroundDetection { env with speechRecognitionAvailable := false }
        (some s) st).1.registeredMotionListeners.length
      = (startBackgroundDetection env (some s) st).1.registeredMotionListeners.length
    ∧ (startBackgroundDetection { env with speechRecognitionAvailable := false }
        (some s) st).1.activeTracks.length
      = (startBackgroundDetection env (some s) st).1.activeTracks.length)
    ∧ ((startBackgroundDetection
        { env with motionPermissionGate := true, motionPermissionGranted := false }
        (some s) st).1.detectionStatus.voice
      = (startBackgroundDetection env (some s) st).1.detectionStatus.voice
    ∧ (startBackgroundDetection
        { env with motionPermissionGate := true, motionPermissionGranted := false }
        (some s) st).1.detectionStatus.camera
      = (startBackgroundDetection env (some s) st).1.detectionStatus.camera
    ∧ (startBackgroundDetection
        { env with motionPermissionGate := true, motionPermissionGranted := false }
        (some s) st).1.isBackgroundActive
      = (startBackgroundDetection env (some s) st).1.isBackgroundActive
    ∧ (startBackgroundDetection
        { env with motionPermissionGate := true, motionPermissionGranted := false }
        (some s) st).1.activeRecognitions
      = (startBackgroundDetection env (some s) st).1.activeRecognitions
    ∧ (startBackgroundDetection
        { env with motionPermissionGate := true, motionPermissionGranted := false }
        (some s) st).1.activeTracks.length
      = (startBackgroundDetection env (some s) st).1.activeTracks.length)
    ∧ (cameraDeniedStart.1.detectionStatus = ⟨true, true, false⟩
      ∧ cameraDeniedStart.2 = StartResult.started ⟨true, true, false⟩
      ∧ cameraDeniedStart.1.isBackgroundActive = true
      ∧ cameraDeniedStart.1.activeRecognitions ≠ []
      ∧ cameraDeniedStart.1.registeredMotionListeners ≠ []) := by
  have hconc : cameraDeniedStart.1.detectionStatus = ⟨true, true, false⟩
      ∧ cameraDeniedStart.2 = StartResult.started ⟨true, true, false⟩
      ∧ cameraDeniedStart.1.isBackgroundActive = true
      ∧ cameraDeniedStart.1.activeRecognitions ≠ []
      ∧ cameraDeniedStart.1.registeredMotionListeners ≠ [] :=
    ⟨rfl, rfl, rfl, by decide, by decide⟩
  obtain ⟨ev, eg, em, ec⟩ := env
  obtain ⟨v, b, g, m, vs, ms, kw⟩ := s
  cases v <;> cases b <;> cases g <;> cases m <;> cases ev <;> cases eg <;>
    cases em <;> cases ec <;>
    exact ⟨⟨rfl, rfl, rfl, rfl, rfl⟩, ⟨rfl, rfl, rfl, rfl, rfl⟩,
      ⟨rfl, rfl, rfl, rfl, rfl⟩, hconc⟩

/-! ## C9 -/

/-- C9: an inbound worker message typed EMERGENCY_TRIGGERED with
contactCount n shows exactly one notification, with the fixed title, the
body interpolating n, and the single view action; a message of any other
type, or no structured data, shows no notification. -/
theorem worker_message_notification_contract (n : Nat) (t : String) :
    onWorkerMessage (some ⟨"EMERGENCY_TRIGGERED", n⟩)
      = [{ title := "🚨 Emergency Alert Sent"
         , body := "Alert sent to " ++ toString n ++ " emergency contacts"
         , actions := [("view", "View Details")] }]
    ∧ (onWorkerMessage (some ⟨"EMERGENCY_TRIGGERED", n⟩)).length = 1
    ∧ (t ≠ "EMERGENCY_TRIGGERED" → onWorkerMessage (some ⟨t, n⟩) = [])
    ∧ onWorkerMessage none = [] := by
  refine ⟨rfl, rfl, ?_, rfl⟩
  intro ht
  simp [onWorkerMessage, ht]

/-- C9 witness: a concrete differently typed message shows nothing. -/
theorem worker_message_notification_contract_witness :
    onWorkerMessage (some ⟨"PING", 3⟩) = [] :=
  (worker_message_notification_contract 3 "PING").2.2.1 (by decide)

/-! ## C10 -/

/-- C10: every start with present settings marks the session active, for
every environment, settings and prior state — even when no modality is
enabled at all, in which case start succeeds with the all-false status on
an active session. -/
theorem start_marks_active_even_without_channels (env : HostEnv)
    (s : DetectionSettings) (st : HookState) :
    (startBackgroundDetection env (some s) st).1.isBackgroundActive = true
    ∧ startBackgroundDetection env
        (some ⟨false, false, false, false, 70, 60, []⟩) initHookState
      = ({ initHookState with isBackgroundActive := true },
         StartResult.started ⟨false, false, false⟩) := by
  constructor
  · obtain ⟨ev, eg, em, ec⟩ := env
    obtain ⟨v, b, g, m, vs, ms, kw⟩ := s
    cases v <;> cases b <;> cases g <;> cases m <;> cases ev <;> cases eg <;>
      cases em <;> cases ec <;> rfl
  · rfl
